import Mathlib

/-!
Shallow embedding of src/src/components/SegmentedButton/SegmentedButtonGroup.tsx
and proofs about it. The component validates its child count, wraps the
children in a context provider, and clones every child whose type is the
SegmentedButton component with positional props.
-/

namespace SegmentedButtonGroupSpec

/-- The value prop of the group: a single string, an array of strings, or null,
mirroring the TypeScript type string | string[] | null. -/
inductive SBValue
| str : String → SBValue
| strs : List String → SBValue
| null : SBValue
deriving DecidableEq

/-- flexDirection values usable in a react-native view style. -/
inductive FlexDirection
| row
| column
deriving DecidableEq

/-- A react-native style value as it occurs in this component: a stylesheet
entry carrying a flexDirection, an arbitrary caller-supplied style kept
abstract behind a numeric identity, or the undefined value (a style prop that
was not passed). -/
inductive RNStyle
| sheet : FlexDirection → RNStyle
| custom : Nat → RNStyle
| undef : RNStyle
deriving DecidableEq

/-- styles.row from the StyleSheet at the bottom of the file:
flexDirection row. -/
def stylesRow : RNStyle := RNStyle.sheet FlexDirection.row

/-- Embeds an optional style prop as an entry of a JavaScript style array;
array literals keep undefined entries, so an absent style becomes undef. -/
def styleItem : Option Nat → RNStyle
| some n => RNStyle.custom n
| none => RNStyle.undef

/-- The segment position prop given to a segmented button by the group. -/
inductive Segment
| first
| default
| last
deriving DecidableEq

/-- The element type of a React child: the SegmentedButton component imported
at the top of the file, or any other component type, told apart by a number. -/
inductive ElemType
| segmentedButton
| other : Nat → ElemType
deriving DecidableEq

/-- The props a child element arrives with: its own style prop, possibly
undefined, plus the rest of its props kept abstract as a number. -/
structure ChildProps where
  style : Option Nat
  rest : Nat
deriving DecidableEq

/-- The three props the React.cloneElement call overrides on a matching
child: segment, multiselect and style. -/
structure CloneConfig where
  segment : Segment
  multiselect : Option Bool
  style : List RNStyle
deriving DecidableEq

/-- A React child node: null, a text node, or an element; an element carries
the clone overrides once the group has processed it, and none beforehand. -/
inductive Child
| null : Child
| text : String → Child
| elem : ElemType → ChildProps → Option CloneConfig → Child
deriving DecidableEq

/-- The test from the map callback: child and child.type === SegmentedButton. -/
def matchesSegmentedButton : Child → Bool
| Child.elem ElemType.segmentedButton _ _ => true
| _ => false

/-- The props of SegmentedButtonGroup. The onValueChange callback is only
forwarded, never called, so it is embedded as an abstract numeric identity;
equality of these numbers models referential identity of the function. -/
structure Props where
  value : SBValue
  onValueChange : Nat
  multiselect : Option Bool
  children : List Child
  style : Option Nat
deriving DecidableEq

/-- The runtime shape of the shared context object. The TypeScript type
declares both fields present, but the default value is the cast empty object,
so at runtime either field may be undefined; Option models that. -/
structure SegmentedButtonContextType where
  value : Option SBValue
  onValueChange : Option Nat
deriving DecidableEq

/-- The default value of SegmentedButtonGroupContext: the empty object cast
to SegmentedButtonContextType, an object with neither field set. -/
def SegmentedButtonGroupContextDefault : SegmentedButtonContextType :=
  { value := none, onValueChange := none }

/-- The View element produced by the group: its style array and its children. -/
structure ViewNode where
  style : List RNStyle
  children : List Child
deriving DecidableEq

/-- Everything a successful render produces: the object given to the context
provider and the View rendered under it. -/
structure Rendered where
  contextValue : SegmentedButtonContextType
  view : ViewNode
deriving DecidableEq

/-- The body of the React.Children.map callback at index i: a child whose type
is SegmentedButton is cloned with segment first, last or default decided by
the index in the whole children list, with the multiselect flag of the group,
and with a style array holding exactly the child's own style; every other
child is returned as is. -/
def renderChild (count : Nat) (multiselect : Option Bool) (i : Nat) : Child → Child
| Child.elem ElemType.segmentedButton pr _ =>
    Child.elem ElemType.segmentedButton pr (some
      { segment := if i = 0 then Segment.first
          else if i = count - 1 then Segment.last else Segment.default
        multiselect := multiselect
        style := [styleItem pr.style] })
| c => c

/-- React.Children.map over the children list, carrying the running index. -/
def annotateChildren (count : Nat) (multiselect : Option Bool) :
    Nat → List Child → List Child
| _, [] => []
| i, c :: cs =>
    renderChild count multiselect i c :: annotateChildren count multiselect (i + 1) cs

/-- The single error kind the component can raise during construction. -/
inductive RenderError
| invalidChildCount
deriving DecidableEq

/-- The component body: count the children, throw when the count is below 2 or
above 5 before anything is built, and otherwise produce the provider object
holding value and onValueChange and the row View with the mapped children. -/
def render (p : Props) : Except RenderError Rendered :=
  if p.children.length < 2 ∨ p.children.length > 5 then
    Except.error RenderError.invalidChildCount
  else
    Except.ok
      { contextValue := { value := some p.value, onValueChange := some p.onValueChange }
        view :=
          { style := [stylesRow, styleItem p.style]
            children := annotateChildren p.children.length p.multiselect 0 p.children } }

/-- The successful result of a render, with a harmless fallback in the error
case; used to name concrete rendered values in closed statements. -/
def renderOk (p : Props) : Rendered :=
  match render p with
  | Except.ok r => r
  | Except.error _ =>
      { contextValue := SegmentedButtonGroupContextDefault
        view := { style := [], children := [] } }

/-- A segmented-button child with the given own style and remaining props. -/
def sbChild (st : Option Nat) (rest : Nat) : Child :=
  Child.elem ElemType.segmentedButton { style := st, rest := rest } none

/-- A child whose type is some component other than SegmentedButton. -/
def otherChild (ty : Nat) (rest : Nat) : Child :=
  Child.elem (ElemType.other ty) { style := none, rest := rest } none

/-- Concrete props with two segmented-button children. -/
def wProps : Props :=
  { value := SBValue.null
    onValueChange := 3
    multiselect := some true
    children := [sbChild (some 7) 1, sbChild none 2]
    style := some 9 }

/-- Concrete props mixing a null child with two segmented buttons. -/
def wMixed : Props :=
  { value := SBValue.null
    onValueChange := 0
    multiselect := none
    children := [Child.null, sbChild none 1, sbChild none 2]
    style := none }

/-- Concrete props whose two children are not segmented buttons at all. -/
def wNoMatch : Props :=
  { value := SBValue.strs []
    onValueChange := 1
    multiselect := none
    children := [Child.null, otherChild 4 0]
    style := none }

/-- Concrete props whose first child is a foreign element followed by two
segmented buttons. -/
def C2cex : Props :=
  { value := SBValue.null
    onValueChange := 0
    multiselect := none
    children := [otherChild 0 0, sbChild none 1, sbChild none 2]
    style := none }

/-- The segment prop carried by the first child whose type is SegmentedButton,
when that child exists and was annotated. -/
def firstMatchingSegment : List Child → Option Segment
| [] => none
| Child.elem ElemType.segmentedButton _ cfg :: _ => Option.map CloneConfig.segment cfg
| _ :: cs => firstMatchingSegment cs

lemma annotateChildren_get (n : Nat) (ms : Option Bool) :
    ∀ (cs : List Child) (i j : Nat) (c : Child), cs.get? j = some c →
      (annotateChildren n ms i cs).get? j = some (renderChild n ms (i + j) c) := by
  intro cs
  induction cs with
  | nil =>
    intro i j c h
    simp [List.get?] at h
  | cons hd tl ih =>
    intro i j c h
    cases j with
    | zero =>
      simp only [List.get?] at h
      have hc := Option.some.inj h
      subst hc
      simp [annotateChildren, List.get?]
    | succ j2 =>
      simp only [List.get?] at h
      have h2 := ih (i + 1) j2 c h
      simp only [annotateChildren, List.get?]
      have e : i + (j2 + 1) = i + 1 + j2 := by omega
      rw [e]
      exact h2

lemma annotateChildren_eq_self (n : Nat) (ms : Option Bool) :
    ∀ (cs : List Child) (i : Nat),
      (∀ c ∈ cs, matchesSegmentedButton c = false) →
      annotateChildren n ms i cs = cs := by
  intro cs
  induction cs with
  | nil =>
    intro i _
    rfl
  | cons hd tl ih =>
    intro i h
    have hhd : matchesSegmentedButton hd = false := h hd (List.mem_cons_self hd tl)
    have htl : ∀ c ∈ tl, matchesSegmentedButton c = false :=
      fun c hc => h c (List.mem_cons_of_mem hd hc)
    have hr : renderChild n ms i hd = hd := by
      cases hd with
      | null => rfl
      | text s => rfl
      | elem ty pr cfg =>
        cases ty with
        | segmentedButton => simp [matchesSegmentedButton] at hhd
        | other k => rfl
    simp [annotateChildren, hr, ih (i + 1) htl]

lemma render_ok_elim (p : Props) (r : Rendered) (hr : render p = Except.ok r) :
    r = { contextValue := { value := some p.value, onValueChange := some p.onValueChange }
          view :=
            { style := [stylesRow, styleItem p.style]
              children := annotateChildren p.children.length p.multiselect 0 p.children } } := by
  unfold render at hr
  split at hr
  · exact Except.noConfusion hr
  · exact (Except.ok.inj hr).symm

lemma render_ok_get_matching (p : Props) (r : Rendered) (i : Nat) (pr : ChildProps)
    (cfg : Option CloneConfig) (hr : render p = Except.ok r)
    (hc : p.children.get? i = some (Child.elem ElemType.segmentedButton pr cfg)) :
    r.view.children.get? i = some (Child.elem ElemType.segmentedButton pr (some
      { segment := if i = 0 then Segment.first
          else if i = p.children.length - 1 then Segment.last else Segment.default
        multiselect := p.multiselect
        style := [styleItem pr.style] })) := by
  have h1 := render_ok_elim p r hr
  subst h1
  have h2 := annotateChildren_get p.children.length p.multiselect p.children 0 i _ hc
  simpa [renderChild] using h2

/-- Claim C1: construction fails, with the single error kind invalidChildCount,
exactly when the child count is below 2 or above 5; for every count inside
[2, 5] the render succeeds, whatever the other props are. The error branch of
render produces no Rendered value at all, so nothing is built before the
throw. -/
theorem C1_error_iff_invalid_count (p : Props) :
    (render p = Except.error RenderError.invalidChildCount ↔
      (p.children.length < 2 ∨ 5 < p.children.length)) ∧
    ((∃ r, render p = Except.ok r) ↔
      (2 ≤ p.children.length ∧ p.children.length ≤ 5)) := by
  unfold render
  split
  · next hc =>
    constructor
    · exact ⟨fun _ => hc, fun _ => rfl⟩
    · constructor
      · intro h
        obtain ⟨r, h⟩ := h
        exact Except.noConfusion h
      · intro h
        exact absurd hc (by omega)
  · next hc =>
    constructor
    · constructor
      · intro h
        exact Except.noConfusion h
      · intro h
        exact absurd h hc
    · constructor
      · intro _
        constructor <;> omega
      · intro _
        exact ⟨_, rfl⟩

/-- Claim C2 counterexample: with a foreign element first and two segmented
buttons after it, the render succeeds and the first child of type
SegmentedButton receives segment default, not first, because the index used is
the index in the whole children list. -/
theorem C2_counterexample :
    Except.map (fun r => firstMatchingSegment r.view.children) (render C2cex)
        = Except.ok (some Segment.default) ∧
      some Segment.default ≠ some Segment.first := by
  exact ⟨rfl, by decide⟩

/-- Claim C2 (amended): for every successful render, the child of type
SegmentedButton at index i of the children list is cloned with segment first
when i = 0, last when i = count - 1 and default otherwise, where i ranges over
all children regardless of type; a matching child preceded by non-matching
children therefore does not receive first. -/
theorem C2_segment_from_group_index (p : Props) (r : Rendered) (i : Nat)
    (pr : ChildProps) (cfg : Option CloneConfig) (hr : render p = Except.ok r)
    (hc : p.children.get? i = some (Child.elem ElemType.segmentedButton pr cfg)) :
    r.view.children.get? i = some (Child.elem ElemType.segmentedButton pr (some
      { segment := if i = 0 then Segment.first
          else if i = p.children.length - 1 then Segment.last else Segment.default
        multiselect := p.multiselect
        style := [styleItem pr.style] })) :=
  render_ok_get_matching p r i pr cfg hr hc

/-- Witness for C2: in wMixed the segmented button at index 1 of three children
receives the segment computed from index 1. -/
theorem C2_witness :
    (renderOk wMixed).view.children.get? 1 =
      some (Child.elem ElemType.segmentedButton { style := none, rest := 1 } (some
        { segment := if 1 = 0 then Segment.first
            else if 1 = wMixed.children.length - 1 then Segment.last else Segment.default
          multiselect := wMixed.multiselect
          style := [styleItem ({ style := none, rest := 1 } : ChildProps).style] })) :=
  C2_segment_from_group_index wMixed (renderOk wMixed) 1
    { style := none, rest := 1 } none rfl rfl

/-- Claim C3: every child of type SegmentedButton is cloned with the group's
multiselect flag unchanged, including when the flag is absent. -/
theorem C3_multiselect_forwarded (p : Props) (r : Rendered) (i : Nat)
    (pr : ChildProps) (cfg : Option CloneConfig) (hr : render p = Except.ok r)
    (hc : p.children.get? i = some (Child.elem ElemType.segmentedButton pr cfg)) :
    ∃ c2 : CloneConfig,
      r.view.children.get? i = some (Child.elem ElemType.segmentedButton pr (some c2)) ∧
      c2.multiselect = p.multiselect :=
  ⟨_, render_ok_get_matching p r i pr cfg hr hc, rfl⟩

/-- Witness for C3 at wProps, whose multiselect flag is some true. -/
theorem C3_witness :
    ∃ c2 : CloneConfig,
      (renderOk wProps).view.children.get? 0 =
        some (Child.elem ElemType.segmentedButton { style := some 7, rest := 1 } (some c2)) ∧
      c2.multiselect = wProps.multiselect :=
  C3_multiselect_forwarded wProps (renderOk wProps) 0
    { style := some 7, rest := 1 } none rfl rfl

/-- Claim C4: every child that is not an element of type SegmentedButton is
returned by the map callback exactly as it arrived, with nothing added. -/
theorem C4_nonmatching_passthrough (p : Props) (r : Rendered) (i : Nat) (c : Child)
    (hr : render p = Except.ok r) (hc : p.children.get? i = some c)
    (hm : matchesSegmentedButton c = false) :
    r.view.children.get? i = some c := by
  have h1 := render_ok_elim p r hr
  subst h1
  have h2 := annotateChildren_get p.children.length p.multiselect p.children 0 i c hc
  have h3 : renderChild p.children.length p.multiselect (0 + i) c = c := by
    cases c with
    | null => rfl
    | text s => rfl
    | elem ty pr cfg =>
      cases ty with
      | segmentedButton => simp [matchesSegmentedButton] at hm
      | other k => rfl
  rw [h3] at h2
  exact h2

/-- Witness for C4: the null child at index 0 of wMixed passes through as is. -/
theorem C4_witness : (renderOk wMixed).view.children.get? 0 = some Child.null :=
  C4_nonmatching_passthrough wMixed (renderOk wMixed) 0 Child.null rfl rfl rfl

/-- Claim C5: the object given to the context provider holds exactly the value
and onValueChange props of the group; in the embedding, referential identity
of the forwarded values is equality of the embedded values. -/
theorem C5_context_holds_props (p : Props) (r : Rendered)
    (hr : render p = Except.ok r) :
    r.contextValue.value = some p.value ∧
    r.contextValue.onValueChange = some p.onValueChange := by
  have h1 := render_ok_elim p r hr
  subst h1
  exact ⟨rfl, rfl⟩

/-- Witness for C5 at wProps. -/
theorem C5_witness :
    (renderOk wProps).contextValue.value = some wProps.value ∧
    (renderOk wProps).contextValue.onValueChange = some wProps.onValueChange :=
  C5_context_holds_props wProps (renderOk wProps) rfl

/-- Claim C6: the style of the View is the two-entry array holding the fixed
row-direction stylesheet entry first and the caller style second, so a caller
style merges after and can override the default. -/
theorem C6_container_style (p : Props) (r : Rendered)
    (hr : render p = Except.ok r) :
    r.view.style = [stylesRow, styleItem p.style] ∧
    stylesRow = RNStyle.sheet FlexDirection.row := by
  have h1 := render_ok_elim p r hr
  subst h1
  exact ⟨rfl, rfl⟩

/-- Witness for C6 at wProps, whose caller style is some 9. -/
theorem C6_witness :
    (renderOk wProps).view.style = [stylesRow, styleItem wProps.style] ∧
    stylesRow = RNStyle.sheet FlexDirection.row :=
  C6_container_style wProps (renderOk wProps) rfl

/-- Claim C7: every cloned child's style override is the one-entry array
holding exactly the child's own style; the group-level style prop appears in
no child's override, since the equation holds for every value of it. -/
theorem C7_child_style_own_only (p : Props) (r : Rendered) (i : Nat)
    (pr : ChildProps) (cfg : Option CloneConfig) (hr : render p = Except.ok r)
    (hc : p.children.get? i = some (Child.elem ElemType.segmentedButton pr cfg)) :
    ∃ c2 : CloneConfig,
      r.view.children.get? i = some (Child.elem ElemType.segmentedButton pr (some c2)) ∧
      c2.style = [styleItem pr.style] :=
  ⟨_, render_ok_get_matching p r i pr cfg hr hc, rfl⟩

/-- Witness for C7 at index 1 of wProps, a child with no style of its own,
while the group style is some 9 and does not appear. -/
theorem C7_witness :
    ∃ c2 : CloneConfig,
      (renderOk wProps).view.children.get? 1 =
        some (Child.elem ElemType.segmentedButton { style := none, rest := 2 } (some c2)) ∧
      c2.style = [styleItem ({ style := none, rest := 2 } : ChildProps).style] :=
  C7_child_style_own_only wProps (renderOk wProps) 1
    { style := none, rest := 2 } none rfl rfl

/-- Claim C8: the component is a pure function of its props: equal props give
equal output, and render, which embeds the whole body, reads no state other
than its argument. The source uses no hook or module-level mutable state, so
the embedding as a total function is faithful. -/
theorem C8_deterministic (p q : Props) (h : p = q) : render p = render q := by
  rw [h]

/-- Witness for C8 at wProps. -/
theorem C8_witness : render wProps = render wProps :=
  C8_deterministic wProps wProps rfl

/-- Claim C9: the count validation counts every child regardless of type, so a
list of 2 to 5 children none of which is a SegmentedButton still renders
successfully and every child passes through unannotated. -/
theorem C9_count_regardless_of_type (p : Props)
    (h2 : 2 ≤ p.children.length) (h5 : p.children.length ≤ 5)
    (hall : ∀ c ∈ p.children, matchesSegmentedButton c = false) :
    ∃ r : Rendered, render p = Except.ok r ∧ r.view.children = p.children := by
  refine ⟨{ contextValue := { value := some p.value, onValueChange := some p.onValueChange }
            view :=
              { style := [stylesRow, styleItem p.style]
                children := annotateChildren p.children.length p.multiselect 0 p.children } },
          ?_, ?_⟩
  · unfold render
    have hcond : ¬(p.children.length < 2 ∨ p.children.length > 5) := by omega
    rw [if_neg hcond]
  · exact annotateChildren_eq_self p.children.length p.multiselect p.children 0 hall

/-- Witness for C9 at wNoMatch, whose two children are a null and a foreign
element. -/
theorem C9_witness :
    ∃ r : Rendered, render wNoMatch = Except.ok r ∧ r.view.children = wNoMatch.children :=
  C9_count_regardless_of_type wNoMatch (by decide) (by decide) (by decide)

/-- Claim C10: the default value of the exported context is the empty object,
so a consumer without a group ancestor reads undefined for both value and
onValueChange. -/
theorem C10_context_default_empty :
    SegmentedButtonGroupContextDefault.value = none ∧
    SegmentedButtonGroupContextDefault.onValueChange = none :=
  ⟨rfl, rfl⟩

end SegmentedButtonGroupSpec
